/-
Verification of the supplier-procurement core against its specification.

The definitions below are a shallow embedding of the Python source:
  * src/supplier/signals.py                 (situation deriver)
  * src/supplier/models/supplier.py         (Supplier.is_completed_registration,
                                             SupplierSituation)
  * src/supplier/models/validators.py       (validate_object_complete)
  * src/supplier/models/attachments.py      (SupplierAttachment.is_completed_files)
  * src/supplier/models/approval_workflow.py (ApprovalFlow.advance_to_next_step,
                                             complete_flow, StepApproval)
  * src/supplier/views/approval_workflow.py (StartApprovalFlowView,
                                             StepApprovalCreateView)
  * src/supplier/serializers/inbound/responsibility_matrix.py
                                            (RACI validation)
  * src/supplier/serializers/inbound/approval_workflow.py
                                            (SetResponsibleApproverSerializer)

Django rows are embedded as Lean structures, query sets as lists, and the
per-supplier situation history as a list ordered oldest first, so that the
"current" situation (most recent row) is the last element.
-/
import Mathlib

namespace Procurement

/-! ## Situation catalog and history

`DomSupplierSituation` rows (src/supplier/models/domain.py plus the
`pendency_type` dimension used by src/supplier/signals.py and the test
fixtures): a status has a `name` and an optional pendency-type id taken
from `DomPendecyTypeEnum` (src/supplier/enums.py). -/

structure DomSituation where
  name : String
  pendencyType : Option Nat
  deriving DecidableEq, Repr

/-- The `ATIVO` status row. -/
def ativo : DomSituation := ⟨"ATIVO", none⟩

/-- Status `PENDENTE` with `PENDENCIA_CADASTRO = 1`. -/
def pendenteCadastro : DomSituation := ⟨"PENDENTE", some 1⟩

/-- Status `PENDENTE` with `PENDENCIA_DOCUMENTACAO = 2`. -/
def pendenteDocumentacao : DomSituation := ⟨"PENDENTE", some 2⟩

/-- Status `PENDENTE` with `PENDENCIA_MATRIZ_RESPONSABILIDADE = 3`. -/
def pendenteMatriz : DomSituation := ⟨"PENDENTE", some 3⟩

/-- A supplier's `SupplierSituation` history, oldest row first.  The code in
`Supplier.situation` (src/supplier/models/supplier.py:468-472) reads the
most recently created row, i.e. the last element here. -/
abbrev SituationHistory := List DomSituation

/-- Embeds `Supplier.situation`: most recent `SupplierSituation` row, if any. -/
def currentSituation (h : SituationHistory) : Option DomSituation :=
  h.getLast?

/-- Embeds `SupplierSituation.objects.get_or_create(supplier=…, status=s)` under the
`unique_together (supplier, status)` constraint
(src/supplier/models/supplier.py:506): a new row is appended only when no
row with this status exists yet for the supplier. -/
def getOrCreate (h : SituationHistory) (s : DomSituation) : SituationHistory :=
  if h.contains s then h else h ++ [s]

/-- Embeds `not instance.situation or instance.situation and
instance.situation.status.name != "PENDENTE"` from
src/supplier/signals.py:24-27. -/
def situationNotPendente (h : SituationHistory) : Bool :=
  match currentSituation h with
  | none => true
  | some s => s.name != "PENDENTE"

/-- Embeds `verify_supplier_pendency` (src/supplier/signals.py:13-34), with the
verdict of `Supplier.is_completed_registration` abstracted into the
`isCompleted` argument. -/
def verify_supplier_pendency (isCompleted : Bool) (h : SituationHistory) :
    SituationHistory :=
  if isCompleted then
    getOrCreate h ativo
  else if situationNotPendente h then
    getOrCreate h pendenteCadastro
  else
    h

/-- Embeds `supplier.situation and supplier.situation.status.name != "ATIVO"` from
src/supplier/signals.py:59-60. -/
def situationSomeNotAtivo (h : SituationHistory) : Bool :=
  match currentSituation h with
  | none => false
  | some s => s.name != "ATIVO"

/-- Embeds `verify_responsability_matrix_pendency` (src/supplier/signals.py:37-64)
with `instance.is_completed` and `supplier.is_completed_registration`
abstracted into the two Boolean arguments. -/
def verify_responsability_matrix_pendency (matrixCompleted regCompleted : Bool)
    (h : SituationHistory) : SituationHistory :=
  if !matrixCompleted && situationNotPendente h then
    getOrCreate h pendenteMatriz
  else if matrixCompleted && regCompleted && situationSomeNotAtivo h then
    getOrCreate h ativo
  else
    h

/-- Embeds `verify_supplier_attachment_pendency` (src/supplier/signals.py:67-94)
with `instance.is_completed_files` and `supplier.is_completed_registration`
abstracted into the two Boolean arguments. -/
def verify_supplier_attachment_pendency (filesCompleted regCompleted : Bool)
    (h : SituationHistory) : SituationHistory :=
  if !filesCompleted && situationNotPendente h then
    getOrCreate h pendenteDocumentacao
  else if filesCompleted && regCompleted && situationSomeNotAtivo h then
    getOrCreate h ativo
  else
    h

/-- Spec-side predicate: the supplier's current situation exists and its
status is named `PENDENTE` (any pendency reason). -/
def currentIsPendente (h : SituationHistory) : Bool :=
  match h.getLast? with
  | some s => s.name == "PENDENTE"
  | none => false

/-! ## Approval workflow

Embedding of src/supplier/models/approval_workflow.py and
src/supplier/views/approval_workflow.py.  The `ApprovalStep` catalog is a
list; `order_by("order").first()` is the first element of minimal `order`
(Django's sort is stable, so ties resolve to the earlier row). -/

structure ApprovalStep where
  id : Nat
  order : Nat
  deriving DecidableEq, Repr

/-- Embeds `ApprovalStep.objects.order_by("order").first()`. -/
def firstByOrder (steps : List ApprovalStep) : Option ApprovalStep :=
  steps.foldl
    (fun acc s =>
      match acc with
      | none => some s
      | some t => if s.order < t.order then some s else some t)
    none

/-- Embeds `ApprovalStep.objects.filter(order__gt=cur.order).order_by("order").first()`
(src/supplier/models/approval_workflow.py:138-142, also
`ApprovalWorkflowService.get_next_approval_step`). -/
def nextStepAfter (steps : List ApprovalStep) (cur : ApprovalStep) :
    Option ApprovalStep :=
  firstByOrder (steps.filter (fun s => cur.order < s.order))

/-- Embeds `ApprovalFlow` (simple-variant model shape,
src/supplier/models/approval_workflow.py:81-112): supplier pointer is
implicit (one flow modelled at a time), `completion_date` is an abstract
timestamp. -/
structure ApprovalFlow where
  currentStep : Option ApprovalStep
  completionDate : Option Nat
  deriving DecidableEq, Repr

/-- Embeds `ApprovalFlow.is_completed`. -/
def ApprovalFlow.isCompleted (f : ApprovalFlow) : Bool :=
  f.completionDate.isSome

/-- Embeds `ApprovalFlow.complete_flow` with `timezone.now()` passed as `now`. -/
def completeFlow (now : Nat) (f : ApprovalFlow) : ApprovalFlow :=
  { f with completionDate := some now, currentStep := none }

/-- Embeds `ApprovalFlow.advance_to_next_step`
(src/supplier/models/approval_workflow.py:125-150); returns the updated
flow and the method's Boolean result. -/
def advanceToNextStep (steps : List ApprovalStep) (now : Nat)
    (f : ApprovalFlow) : ApprovalFlow × Bool :=
  if f.isCompleted then (f, false)
  else
    match f.currentStep with
    | none =>
        match firstByOrder steps with
        | some s => ({ f with currentStep := some s }, true)
        | none => (f, false)
    | some cur =>
        match nextStepAfter steps cur with
        | some n => ({ f with currentStep := some n }, true)
        | none => (completeFlow now f, true)

/-- Embeds `StartApprovalFlowView.post`
(src/supplier/views/approval_workflow.py:198-219): creates a fresh flow
(no current step, no completion date) and advances it once. -/
def startApprovalFlow (steps : List ApprovalStep) (now : Nat) : ApprovalFlow :=
  (advanceToNextStep steps now { currentStep := none, completionDate := none }).1

/-- A `StepApproval` row (src/supplier/models/approval_workflow.py:167-216),
restricted to the fields the views read: the step it concerns and the
approve/reject verdict. -/
structure StepApprovalRow where
  stepId : Nat
  isApproved : Bool
  deriving DecidableEq, Repr

/-- The state `StepApprovalCreateView` operates on: one supplier's flow plus
its `StepApproval` rows. -/
structure FlowState where
  flow : ApprovalFlow
  approvals : List StepApprovalRow
  deriving DecidableEq, Repr

def ERROR_NO_CURRENT_STEP : String :=
  "Este fluxo não possui um passo atual definido."

def ERROR_STEP_ALREADY_EVALUATED : String :=
  "Este passo já foi avaliado anteriormente."

/-- Embeds `StepApprovalCreateView.post`
(src/supplier/views/approval_workflow.py:123-168): decide the flow's
current step.  Mirrors the view after flow lookup: missing current step
and already-evaluated step are rejected; otherwise a `StepApproval` row is
created and, on approval only, the flow advances. -/
def stepApprovalPost (steps : List ApprovalStep) (now : Nat) (st : FlowState)
    (isApproved : Bool) : Except String FlowState :=
  match st.flow.currentStep with
  | none => .error ERROR_NO_CURRENT_STEP
  | some cur =>
      if st.approvals.any (fun a => a.stepId == cur.id) then
        .error ERROR_STEP_ALREADY_EVALUATED
      else
        let st' : FlowState :=
          { st with approvals := st.approvals ++ [⟨cur.id, isApproved⟩] }
        if isApproved then
          .ok { st' with flow := (advanceToNextStep steps now st'.flow).1 }
        else
          .ok st'

/-! ## Assign-responsible serializer

Embedding of `SetResponsibleApproverSerializer`
(src/supplier/serializers/inbound/approval_workflow.py:61-138), the
richer append-only variant of the flow model: one `WorkflowRow` per
step-visit, carrying its own approver and observations. -/

structure Approver where
  email : String
  name : String
  deriving DecidableEq, Repr

structure WorkflowRow where
  id : Nat
  supplierId : Nat
  stepId : Nat
  approverEmail : String
  observations : String
  deriving DecidableEq, Repr

/-- The database state the serializer reads and writes. -/
structure WorkflowDb where
  steps : List ApprovalStep
  workflows : List WorkflowRow
  approvers : List Approver
  deriving DecidableEq, Repr

/-- Input of `SetResponsibleApproverSerializer`. -/
structure SetResponsibleInput where
  name : String
  email : String
  workflowId : Nat
  stepId : Nat
  observations : String
  deriving DecidableEq, Repr

def ERROR_NO_NEXT_STEP : String :=
  "Não há próximo passo definido no fluxo de aprovação."

def ERROR_STEP_NOT_FOUND : String :=
  "Passo de aprovação não encontrado."

def ERROR_WORKFLOW_NOT_FOUND : String :=
  "Fluxo de aprovação não encontrado."

/-- Embeds `SetResponsibleApproverSerializer.validate`
(src/supplier/serializers/inbound/approval_workflow.py:81-111): look the
step up by id, require a next step (smallest order strictly greater),
then look the workflow row up by (id, step). -/
def setResponsibleValidate (db : WorkflowDb) (inp : SetResponsibleInput) :
    Except String (ApprovalStep × WorkflowRow) :=
  match db.steps.find? (fun s => s.id == inp.stepId) with
  | none => .error ERROR_STEP_NOT_FOUND
  | some step =>
      match nextStepAfter db.steps step with
      | none => .error ERROR_NO_NEXT_STEP
      | some nextStep =>
          match db.workflows.find?
              (fun w => w.id == inp.workflowId && w.stepId == step.id) with
          | none => .error ERROR_WORKFLOW_NOT_FOUND
          | some workflow => .ok (nextStep, workflow)

/-- Embeds `Approver.objects.get_or_create` keyed on the email with the name
as creation default: the name is fixed at first creation only. -/
def approverGetOrCreate (approvers : List Approver) (email name : String) :
    List Approver :=
  if approvers.any (fun a => a.email == email) then approvers
  else approvers ++ [⟨email, name⟩]

/-- Embeds `SetResponsibleApproverSerializer.create`
(src/supplier/serializers/inbound/approval_workflow.py:113-138): look up
or create the approver, then append a new workflow row on the next step. -/
def setResponsibleCreate (db : WorkflowDb) (inp : SetResponsibleInput)
    (nextStep : ApprovalStep) (workflow : WorkflowRow) (newId : Nat) :
    WorkflowDb :=
  { db with
    approvers := approverGetOrCreate db.approvers inp.email inp.name
    workflows := db.workflows ++
      [⟨newId, workflow.supplierId, nextStep.id, inp.email, inp.observations⟩] }

/-- Embeds `serializer.save()`: `validate` first; `create` only runs when
validation succeeded, so a validation error leaves the database
untouched. -/
def setResponsibleSave (db : WorkflowDb) (inp : SetResponsibleInput)
    (newId : Nat) : Except String Unit × WorkflowDb :=
  match setResponsibleValidate db inp with
  | .error e => (.error e, db)
  | .ok (nextStep, workflow) =>
      (.ok (), setResponsibleCreate db inp nextStep workflow newId)

/-! ## RACI responsibility-matrix validation

Embedding of `ResponsibilityMatrixInSerializer`
(src/supplier/serializers/inbound/responsibility_matrix.py).  The
serializer reflects over the model's field list; the field names below are
the `ResponsibilityMatrix` columns in definition order
(src/supplier/models/responsibility_matrix.py:59-164), preceded by the
non-RACI columns. -/

def roleSuffixes : List String :=
  ["requesting_area", "administrative", "legal",
   "financial", "integrity", "board"]

def activityStems : List String :=
  ["contract_request", "document_analysis", "risk_consultation",
   "risk_assessment", "system_registration", "form_handling",
   "contract_draft", "compliance_validation", "final_approval",
   "contract_signing", "document_management", "payment_release",
   "contract_execution_monitoring"]

/-- The model's field names as seen by `_meta.get_fields()`. -/
def responsibilityMatrixFieldNames : List String :=
  ["id", "created_at", "updated_at", "supplier"] ++
    activityStems.flatMap (fun a => roleSuffixes.map (fun r => a ++ "_" ++ r))

/-- Embeds `_get_activity_prefixes`
(src/supplier/serializers/inbound/responsibility_matrix.py:63-78): note it
lists 12 activities; `contract_execution_monitoring_` is absent. -/
def activity_prefixes : List String :=
  ["contract_request_", "document_analysis_", "risk_consultation_",
   "risk_assessment_", "system_registration_", "form_handling_",
   "contract_draft_", "compliance_validation_", "final_approval_",
   "contract_signing_", "document_management_", "payment_release_"]

/-- Python `str.startswith`, on character lists. -/
def startsWithChars : List Char → List Char → Bool
  | _, [] => true
  | [], _ :: _ => false
  | a :: as, b :: bs => a == b && startsWithChars as bs

def pyStartsWith (s p : String) : Bool :=
  startsWithChars s.data p.data

/-- Embeds `_find_matching_prefix`: the first activity prefix the field name
starts with, if any. -/
def find_matching_pref (fieldName : String) : Option String :=
  activity_prefixes.find? (fun p => pyStartsWith fieldName p)

/-- Python `s.rsplit("_", 1)[0]`: everything before the last underscore
(the whole string when it has no underscore). -/
def pyRsplitHead (s : String) : String :=
  match s.data.reverse.dropWhile (fun c => c != '_') with
  | [] => s
  | _ :: rest => ⟨rest.reverse⟩

/-- The `attrs` dictionary handed to `validate`, as an association list in
insertion order. -/
abbrev Attrs := List (String × String)

def attrsGet (attrs : Attrs) (name : String) : Option String :=
  (attrs.find? (fun kv => kv.1 == name)).map (fun kv => kv.2)

/-- Embeds `_add_to_raci_fields`: append the value to the activity's group,
creating the group at the end on first sight (dict insertion order). -/
def addToRaciFields : List (String × List String) → String → String →
    List (String × List String)
  | [], act, v => [(act, [v])]
  | (a, vs) :: rest, act, v =>
      if a == act then (a, vs ++ [v]) :: rest
      else (a, vs) :: addToRaciFields rest act v

/-- Embeds `_extract_raci_fields`
(src/supplier/serializers/inbound/responsibility_matrix.py:43-61): walk
the model fields, keep attrs values that are truthy (present and
non-empty) for fields matching an activity prefix, grouped by
`field_name.rsplit("_", 1)[0]`. -/
def extractRaciFields (attrs : Attrs) : List (String × List String) :=
  responsibilityMatrixFieldNames.foldl
    (fun acc fieldName =>
      match find_matching_pref fieldName with
      | none => acc
      | some _ =>
          match attrsGet attrs fieldName with
          | none => acc
          | some v =>
              if v == "" then acc
              else addToRaciFields acc (pyRsplitHead fieldName) v)
    []

/-- Embeds `_validate_single_accountable`
(src/supplier/serializers/inbound/responsibility_matrix.py:99-106); the
raised `BaseValidationError` is represented by the offending activity
name. -/
def validate_single_accountable (activity : String) (values : List String) :
    Except String Unit :=
  if values.count "A" + values.count "A/R" > 1 then .error activity
  else .ok ()

/-- Embeds `_validate_minimum_involvement`
(src/supplier/serializers/inbound/responsibility_matrix.py:108-114). -/
def validate_minimum_involvement (activity : String) (values : List String) :
    Except String Unit :=
  if values.all (fun v => v == "-") then .error activity
  else .ok ()

/-- Embeds `_validate_raci_business_rules`: both rules per activity group, first
violation raised. -/
def validate_raci_business_rules :
    List (String × List String) → Except String Unit
  | [] => .ok ()
  | (a, vs) :: rest => do
      validate_single_accountable a vs
      validate_minimum_involvement a vs
      validate_raci_business_rules rest

/-- Embeds `ResponsibilityMatrixInSerializer.validate`
(src/supplier/serializers/inbound/responsibility_matrix.py:31-41). -/
def responsibilityMatrixValidate (attrs : Attrs) : Except String Attrs := do
  validate_raci_business_rules (extractRaciFields attrs)
  pure attrs

/-- Spec-side count: accountable letters (`A` plus `A/R`) assigned across
one activity's six role columns of a submission. -/
def claimAccountableCount (attrs : Attrs) (activity : String) : Nat :=
  (roleSuffixes.filterMap (fun r => attrsGet attrs (activity ++ "_" ++ r))).countP
    (fun v => v == "A" || v == "A/R")

/-- The submission of the repository's serializer test
`test_raci_business_rules_validation`
(src/supplier/tests/test_serializers.py:604-618), snake-cased: the
contract-request activity carries two accountable letters, one in
`requesting_area` and one in `administrative`. -/
def raciTwoAccountableAttrs : Attrs :=
  [("contract_request_requesting_area", "A"),
   ("contract_request_administrative", "A"),
   ("contract_request_legal", "C"),
   ("contract_request_financial", "I"),
   ("contract_request_integrity", "-"),
   ("contract_request_board", "I"),
   ("document_analysis_requesting_area", "I"),
   ("document_analysis_administrative", "A"),
   ("document_analysis_legal", "C"),
   ("document_analysis_financial", "-"),
   ("document_analysis_integrity", "C"),
   ("document_analysis_board", "-")]

/-! ## Supplier attachments

Embedding of `SupplierAttachment.is_completed_files`
(src/supplier/models/attachments.py:65-74). -/

/-- A `DomAttachmentType` row.  Modelled from the spec: the `risk_level`
link on attachment types — used by the query
`filter(attachment_type__risk_level=…)` in `is_completed_files` and
described in §4.1 of the spec
("attachment types defined for the supplier's current risk level") — is
not declared on the `DomAttachmentType` model under src. -/
structure AttachmentType where
  id : Nat
  riskLevel : Nat
  deriving DecidableEq, Repr

/-- A `SupplierAttachment` row, restricted to the columns the queries
read. -/
structure SupplierAttachmentRow where
  supplierId : Nat
  typeId : Nat
  deriving DecidableEq, Repr

/-- The tables `is_completed_files` queries. -/
structure AttachmentDb where
  types : List AttachmentType
  rows : List SupplierAttachmentRow
  deriving DecidableEq, Repr

def typeRiskLevel (db : AttachmentDb) (typeId : Nat) : Option Nat :=
  (db.types.find? (fun t => t.id == typeId)).map (fun t => t.riskLevel)

def supplierAttachmentsOf (db : AttachmentDb) (supplierId : Nat) :
    List SupplierAttachmentRow :=
  db.rows.filter (fun r => r.supplierId == supplierId)

/-- Embeds `SupplierAttachment.is_completed_files`: the supplier's attachment
count compared against the count of `SupplierAttachment` rows — across
all suppliers — whose attachment type has the supplier's risk level. -/
def is_completed_files (db : AttachmentDb) (supplierId riskLevel : Nat) :
    Bool :=
  let totalSupplierAttachs := (supplierAttachmentsOf db supplierId).length
  let totalNeededAttachs :=
    (db.rows.filter
      (fun r => typeRiskLevel db r.typeId == some riskLevel)).length
  decide (totalNeededAttachs ≤ totalSupplierAttachs)

/-- The completeness comparison as claim C7 words it: the supplier's
attachment count against the count of distinct attachment types defined
for the supplier's risk level. -/
def claimAttachmentComplete (db : AttachmentDb) (supplierId riskLevel : Nat) :
    Bool :=
  decide ((db.types.filter (fun t => t.riskLevel == riskLevel)).length ≤
    (supplierAttachmentsOf db supplierId).length)

/-- The amended reading of the attachment rule: the supplier's attachment
row count compared against the count of `SupplierAttachment` rows across
all suppliers whose attachment type's risk level equals the given one. -/
def specRowCountComplete (db : AttachmentDb) (supplierId riskLevel : Nat) :
    Bool :=
  decide
    (db.rows.countP (fun r => decide (typeRiskLevel db r.typeId = some riskLevel))
      ≤ db.rows.countP (fun r => decide (r.supplierId = supplierId)))

/-! ## Recursive completeness validator and full registration

Embedding of `validate_object_complete`
(src/supplier/models/validators.py:8-46), which reflects over a record's
fields.  A record is its field list; each field is auto-generated, a
scalar with a kind (`CharField` vs other), a current value and a declared
default (absent default stands for `None`), or a relationship that is
unset or points to another record. -/

inductive PyField : Type where
  | auto : PyField
  | charScalar : Option String → Option String → PyField
  | otherScalar : Option String → Option String → PyField
  | relNone : PyField
  | relSome : List PyField → PyField

/-- Embeds `validate_object_complete`: auto fields are skipped; unset relations
fail; set relations recurse; a `CharField` fails exactly when its value
equals its default; any other scalar fails when it equals its default or
is null. -/
def validate_object_complete : List PyField → Bool
  | [] => true
  | f :: rest =>
      (match f with
       | .auto => true
       | .charScalar v d => v != d
       | .otherScalar v d => v != d && v.isSome
       | .relNone => false
       | .relSome sub => validate_object_complete sub)
      && validate_object_complete rest

/-- The six `contract_execution_monitoring_*` columns of a
`ResponsibilityMatrix` row (src/supplier/models/responsibility_matrix.py:
154-164); the remaining RACI columns are not read by any completeness
check. -/
structure ResponsibilityMatrixCem where
  contract_execution_monitoring_requesting_area : String
  contract_execution_monitoring_administrative : String
  contract_execution_monitoring_legal : String
  contract_execution_monitoring_financial : String
  contract_execution_monitoring_integrity : String
  contract_execution_monitoring_board : String
  deriving DecidableEq, Repr

/-- Modelled from the spec: `ResponsibilityMatrix.is_completed` is called
by `Supplier.is_completed_registration`, by the signal handlers and by the
test suite, but its definition is absent from the model under src.  Per
the spec (§4.2, richer variant) the matrix is complete when all
contract-execution-monitoring columns are filled in, i.e. differ from the
`-` default. -/
def ResponsibilityMatrixCem.is_completed (m : ResponsibilityMatrixCem) :
    Bool :=
  m.contract_execution_monitoring_requesting_area != "-" &&
  m.contract_execution_monitoring_administrative != "-" &&
  m.contract_execution_monitoring_legal != "-" &&
  m.contract_execution_monitoring_financial != "-" &&
  m.contract_execution_monitoring_integrity != "-" &&
  m.contract_execution_monitoring_board != "-"

/-- A supplier as read by `is_completed_registration`: its reflective
field view (traversed by `validate_object_complete`), its id and risk
level (used by the attachment queries), and its optional responsibility
matrix. -/
structure SupplierRec where
  id : Nat
  riskLevel : Nat
  fields : List PyField
  matrix : Option ResponsibilityMatrixCem

/-- Embeds `Supplier.is_completed_registration`
(src/supplier/models/supplier.py:453-465): the recursive validator on the
supplier, the first attachment's file-completeness (falsy when the
supplier has no attachment), and the matrix's own completeness (false
when no matrix exists, as `hasattr` is false then). -/
def is_completed_registration (db : AttachmentDb) (s : SupplierRec) : Bool :=
  let isObjComplete := validate_object_complete s.fields
  let isFilesComplete :=
    match (supplierAttachmentsOf db s.id).head? with
    | none => false
    | some _ => is_completed_files db s.id s.riskLevel
  let isRespComplete :=
    match s.matrix with
    | none => false
    | some m => m.is_completed
  isObjComplete && isFilesComplete && isRespComplete

/-! ### Helper lemmas about the history operations -/

lemma contains_iff_mem (h : SituationHistory) (s : DomSituation) :
    h.contains s = true ↔ s ∈ h := by
  simp [List.contains_iff_exists_mem_beq, beq_iff_eq]

lemma getOrCreate_of_mem {h : SituationHistory} {s : DomSituation}
    (hs : s ∈ h) : getOrCreate h s = h := by
  simp [getOrCreate, (contains_iff_mem h s).2 hs, hs]

lemma getOrCreate_of_not_mem {h : SituationHistory} {s : DomSituation}
    (hs : s ∉ h) : getOrCreate h s = h ++ [s] := by
  have : h.contains s = false := by
    cases hc : h.contains s
    · rfl
    · exact absurd ((contains_iff_mem h s).1 hc) hs
  simp [getOrCreate, this, hs]

lemma getOrCreate_cases (h : SituationHistory) (s : DomSituation) :
    getOrCreate h s = h ∨ getOrCreate h s = h ++ [s] := by
  by_cases hs : s ∈ h
  · exact Or.inl (getOrCreate_of_mem hs)
  · exact Or.inr (getOrCreate_of_not_mem hs)

lemma mem_getOrCreate (h : SituationHistory) (s : DomSituation) :
    s ∈ getOrCreate h s := by
  by_cases hs : s ∈ h
  · rw [getOrCreate_of_mem hs]; exact hs
  · rw [getOrCreate_of_not_mem hs]; simp

lemma getOrCreate_idem (h : SituationHistory) (s : DomSituation) :
    getOrCreate (getOrCreate h s) s = getOrCreate h s :=
  getOrCreate_of_mem (mem_getOrCreate h s)

lemma getOrCreate_length (h : SituationHistory) (s : DomSituation) :
    (getOrCreate h s).length ≤ h.length + 1 := by
  rcases getOrCreate_cases h s with hc | hc <;> simp [hc]

lemma getOrCreate_nodup {h : SituationHistory} (s : DomSituation)
    (hn : h.Nodup) : (getOrCreate h s).Nodup := by
  by_cases hs : s ∈ h
  · rw [getOrCreate_of_mem hs]; exact hn
  · rw [getOrCreate_of_not_mem hs]
    simp [List.nodup_append, hn, hs]

lemma getOrCreate_count_of_mem {h : SituationHistory} {s₀ : DomSituation}
    (s : DomSituation) (hmem : s₀ ∈ h) :
    (getOrCreate h s).count s₀ = h.count s₀ := by
  by_cases hs : s ∈ h
  · rw [getOrCreate_of_mem hs]
  · rw [getOrCreate_of_not_mem hs]
    have hne : s ≠ s₀ := fun he => hs (he ▸ hmem)
    simp [List.count_append, List.count_singleton, hne]

lemma currentSituation_append (h : SituationHistory) (s : DomSituation) :
    currentSituation (h ++ [s]) = some s := by
  simp [currentSituation]

/-- Each of the three signal handlers either leaves the history unchanged or
performs a single `getOrCreate`. -/
lemma verify_supplier_pendency_shape (c : Bool) (h : SituationHistory) :
    verify_supplier_pendency c h = h ∨
      ∃ s, verify_supplier_pendency c h = getOrCreate h s := by
  unfold verify_supplier_pendency
  split_ifs
  · exact Or.inr ⟨ativo, rfl⟩
  · exact Or.inr ⟨pendenteCadastro, rfl⟩
  · exact Or.inl rfl

lemma verify_responsability_matrix_pendency_shape (m r : Bool)
    (h : SituationHistory) :
    verify_responsability_matrix_pendency m r h = h ∨
      ∃ s, verify_responsability_matrix_pendency m r h = getOrCreate h s := by
  unfold verify_responsability_matrix_pendency
  split_ifs
  · exact Or.inr ⟨pendenteMatriz, rfl⟩
  · exact Or.inr ⟨ativo, rfl⟩
  · exact Or.inl rfl

lemma verify_supplier_attachment_pendency_shape (f r : Bool)
    (h : SituationHistory) :
    verify_supplier_attachment_pendency f r h = h ∨
      ∃ s, verify_supplier_attachment_pendency f r h = getOrCreate h s := by
  unfold verify_supplier_attachment_pendency
  split_ifs
  · exact Or.inr ⟨pendenteDocumentacao, rfl⟩
  · exact Or.inr ⟨ativo, rfl⟩
  · exact Or.inl rfl

lemma situationNotPendente_append_pendente {s : DomSituation}
    (h : SituationHistory) (hs : s.name = "PENDENTE") :
    situationNotPendente (h ++ [s]) = false := by
  simp [situationNotPendente, currentSituation, hs]

lemma situationSomeNotAtivo_append_ativo (h : SituationHistory) :
    situationSomeNotAtivo (h ++ [ativo]) = false := by
  simp [situationSomeNotAtivo, currentSituation, ativo]

lemma situationNotPendente_eq_not_currentIsPendente (h : SituationHistory) :
    situationNotPendente h = !currentIsPendente h := by
  unfold situationNotPendente currentIsPendente currentSituation
  cases h.getLast? <;> simp [bne]

/-! ### Idempotence of the three handlers -/

lemma verify_supplier_pendency_idem (c : Bool) (h : SituationHistory) :
    verify_supplier_pendency c (verify_supplier_pendency c h)
      = verify_supplier_pendency c h := by
  cases c with
  | true => simp [verify_supplier_pendency, getOrCreate_idem]
  | false =>
      by_cases hp : situationNotPendente h
      · by_cases hm : pendenteCadastro ∈ h
        · simp [verify_supplier_pendency, hp, getOrCreate_of_mem hm]
        · simp [verify_supplier_pendency, hp, getOrCreate_of_not_mem hm,
            situationNotPendente_append_pendente (s := pendenteCadastro) h rfl]
      · simp [verify_supplier_pendency, hp]

lemma verify_responsability_matrix_pendency_idem (m r : Bool)
    (h : SituationHistory) :
    verify_responsability_matrix_pendency m r
        (verify_responsability_matrix_pendency m r h)
      = verify_responsability_matrix_pendency m r h := by
  cases m with
  | false =>
      by_cases hp : situationNotPendente h
      · by_cases hm : pendenteMatriz ∈ h
        · simp [verify_responsability_matrix_pendency, hp, getOrCreate_of_mem hm]
        · simp [verify_responsability_matrix_pendency, hp,
            getOrCreate_of_not_mem hm,
            situationNotPendente_append_pendente (s := pendenteMatriz) h rfl]
      · simp [verify_responsability_matrix_pendency, hp]
  | true =>
      cases r with
      | false => simp [verify_responsability_matrix_pendency]
      | true =>
          by_cases ha : situationSomeNotAtivo h
          · by_cases hm : ativo ∈ h
            · simp [verify_responsability_matrix_pendency, ha,
                getOrCreate_of_mem hm]
            · simp [verify_responsability_matrix_pendency, ha,
                getOrCreate_of_not_mem hm, situationSomeNotAtivo_append_ativo]
          · simp [verify_responsability_matrix_pendency, ha]

lemma verify_supplier_attachment_pendency_idem (f r : Bool)
    (h : SituationHistory) :
    verify_supplier_attachment_pendency f r
        (verify_supplier_attachment_pendency f r h)
      = verify_supplier_attachment_pendency f r h := by
  cases f with
  | false =>
      by_cases hp : situationNotPendente h
      · by_cases hm : pendenteDocumentacao ∈ h
        · simp [verify_supplier_attachment_pendency, hp, getOrCreate_of_mem hm]
        · simp [verify_supplier_attachment_pendency, hp,
            getOrCreate_of_not_mem hm,
            situationNotPendente_append_pendente (s := pendenteDocumentacao) h rfl]
      · simp [verify_supplier_attachment_pendency, hp]
  | true =>
      cases r with
      | false => simp [verify_supplier_attachment_pendency]
      | true =>
          by_cases ha : situationSomeNotAtivo h
          · by_cases hm : ativo ∈ h
            · simp [verify_supplier_attachment_pendency, ha,
                getOrCreate_of_mem hm]
            · simp [verify_supplier_attachment_pendency, ha,
                getOrCreate_of_not_mem hm, situationSomeNotAtivo_append_ativo]
          · simp [verify_supplier_attachment_pendency, ha]

lemma length_le_of_shape {h res : SituationHistory}
    (hs : res = h ∨ ∃ s, res = getOrCreate h s) :
    res.length ≤ h.length + 1 := by
  rcases hs with rfl | ⟨s, rfl⟩
  · exact Nat.le_succ _
  · exact getOrCreate_length h s

lemma append_only_of_shape {h res : SituationHistory}
    (hs : res = h ∨ ∃ s, res = getOrCreate h s) :
    res = h ∨ ∃ s, res = h ++ [s] := by
  rcases hs with rfl | ⟨s, rfl⟩
  · exact Or.inl rfl
  · rcases getOrCreate_cases h s with hc | hc
    · exact Or.inl hc
    · exact Or.inr ⟨s, hc⟩

lemma nodup_of_shape {h res : SituationHistory}
    (hs : res = h ∨ ∃ s, res = getOrCreate h s) (hn : h.Nodup) :
    res.Nodup := by
  rcases hs with rfl | ⟨s, rfl⟩
  · exact hn
  · exact getOrCreate_nodup s hn

lemma count_eq_of_shape {h res : SituationHistory} {s₀ : DomSituation}
    (hs : res = h ∨ ∃ s, res = getOrCreate h s) (hmem : s₀ ∈ h) :
    res.count s₀ = h.count s₀ := by
  rcases hs with rfl | ⟨s, rfl⟩
  · rfl
  · exact getOrCreate_count_of_mem s hmem

/-! ### Lemmas about the step ordering -/

lemma firstByOrder_loop_min (rest : List ApprovalStep) (t : ApprovalStep)
    (hmin : ∀ u ∈ rest, ¬ u.order < t.order) :
    rest.foldl
      (fun acc s =>
        match acc with
        | none => some s
        | some u => if s.order < u.order then some s else some u)
      (some t) = some t := by
  induction rest generalizing t with
  | nil => rfl
  | cons u us ih =>
      have h1 : ¬ u.order < t.order := hmin u (by simp)
      simp only [List.foldl_cons]
      show us.foldl _ (if u.order < t.order then some u else some t) = some t
      rw [if_neg h1]
      exact ih t (fun v hv => hmin v (by simp [hv]))

lemma firstByOrder_sorted (steps : List ApprovalStep)
    (hs : steps.Pairwise (fun a b => a.order < b.order)) :
    firstByOrder steps = steps.head? := by
  cases steps with
  | nil => rfl
  | cons s rest =>
      have hmin : ∀ u ∈ rest, ¬ u.order < s.order := by
        intro u hu
        have := (List.pairwise_cons.mp hs).1 u hu
        omega
      unfold firstByOrder
      simp only [List.foldl_cons]
      exact firstByOrder_loop_min rest s hmin

lemma filter_gt_of_split (l₁ l₂ : List ApprovalStep) (cur : ApprovalStep)
    (hs : (l₁ ++ cur :: l₂).Pairwise (fun a b => a.order < b.order)) :
    (l₁ ++ cur :: l₂).filter (fun s => cur.order < s.order) = l₂ := by
  rcases List.pairwise_append.mp hs with ⟨h1, h2, h3⟩
  rw [List.filter_append]
  have hl₁ : l₁.filter (fun s => decide (cur.order < s.order)) = [] := by
    rw [List.filter_eq_nil_iff]
    intro a ha
    have : a.order < cur.order := h3 a ha cur (by simp)
    simp
    omega
  have hcur : decide (cur.order < cur.order) = false := by simp
  have hl₂ : l₂.filter (fun s => decide (cur.order < s.order)) = l₂ := by
    rw [List.filter_eq_self]
    intro a ha
    have : cur.order < a.order := (List.pairwise_cons.mp h2).1 a ha
    simpa using this
  rw [hl₁, List.filter_cons, hcur]
  simpa using hl₂

lemma nextStepAfter_split (l₁ l₂ : List ApprovalStep) (cur : ApprovalStep)
    (hs : (l₁ ++ cur :: l₂).Pairwise (fun a b => a.order < b.order)) :
    nextStepAfter (l₁ ++ cur :: l₂) cur = l₂.head? := by
  unfold nextStepAfter
  rw [filter_gt_of_split l₁ l₂ cur hs]
  exact firstByOrder_sorted l₂
    (List.Pairwise.of_cons (List.pairwise_append.mp hs).2.1)

lemma startApprovalFlow_eq (steps : List ApprovalStep) (now : Nat) :
    (startApprovalFlow steps now).currentStep = firstByOrder steps
    ∧ (startApprovalFlow steps now).completionDate = none := by
  unfold startApprovalFlow advanceToNextStep
  cases hf : firstByOrder steps <;>
    simp [ApprovalFlow.isCompleted, hf]

lemma any_stepId_eq_false {approvals : List StepApprovalRow} {cur : ApprovalStep}
    (hnew : approvals.all (fun a => a.stepId != cur.id) = true) :
    approvals.any (fun a => a.stepId == cur.id) = false := by
  rw [List.any_eq_false]
  intro a ha
  have := List.all_eq_true.mp hnew a ha
  simpa using this

/-! ## Claim theorems -/

/-- C1 (code_bug evidence): on the submission of the repository's own test
`test_raci_business_rules_validation`, the contract-request activity
carries two accountable letters across its six role columns, yet
`ResponsibilityMatrixInSerializer.validate` raises nothing and returns the
attrs unchanged — because `rsplit("_", 1)` puts the `requesting_area`
column into a group of its own.  The test (and the model's and the
validator's own docstrings, "only one accountable per activity") requires
this submission to be rejected. -/
theorem raci_two_accountables_pass_validation :
    claimAccountableCount raciTwoAccountableAttrs "contract_request" = 2
    ∧ responsibilityMatrixValidate raciTwoAccountableAttrs
        = .ok raciTwoAccountableAttrs :=
  ⟨by rfl, by rfl⟩

/-- C4 counterexample: the supplier is complete and its most recent
situation row is `PENDENTE/cadastro`, but an older `ATIVO` row exists;
the claim says a new `ACTIVE` row is inserted so the current situation
becomes `ACTIVE`, yet `get_or_create` finds the old row, inserts nothing,
and the current situation stays `PENDENTE`. -/
theorem supplier_pendency_active_history_counterexample :
    verify_supplier_pendency true [ativo, pendenteCadastro]
        = [ativo, pendenteCadastro]
    ∧ currentSituation [ativo, pendenteCadastro] = some pendenteCadastro
    ∧ pendenteCadastro ≠ ativo := by
  refine ⟨by decide, by decide, by decide⟩

/-- C4 (amended): on a supplier write with the completeness validator
reporting complete, the deriver inserts a new `ACTIVE` row — and the
current situation becomes `ACTIVE` — exactly when no `ACTIVE` row exists
anywhere in the supplier's history; when one already exists (even an
older, superseded one) nothing is inserted and the current situation is
unchanged. -/
theorem supplier_pendency_complete_inserts_active_iff_absent
    (h : SituationHistory) :
    verify_supplier_pendency true h = (if ativo ∈ h then h else h ++ [ativo])
    ∧ currentSituation (verify_supplier_pendency true h)
        = (if ativo ∈ h then currentSituation h else some ativo) := by
  by_cases hm : ativo ∈ h
  · simp [verify_supplier_pendency, getOrCreate_of_mem hm, hm]
  · simp [verify_supplier_pendency, getOrCreate_of_not_mem hm, hm,
      currentSituation_append]

/-- C5 counterexample: the supplier is incomplete and its current
situation is `PENDENTE/documentacao` — a pendency other than
registration — and the claim says a `PENDENTE/cadastro` row is inserted,
yet the handler only checks the status *name* (`PENDENTE`) and inserts
nothing. -/
theorem supplier_pendency_other_reason_counterexample :
    verify_supplier_pendency false [pendenteDocumentacao]
        = [pendenteDocumentacao]
    ∧ currentSituation [pendenteDocumentacao] = some pendenteDocumentacao
    ∧ pendenteDocumentacao ≠ pendenteCadastro := by
  refine ⟨by decide, by decide, by decide⟩

/-- C5 (amended): on a supplier write with the validator reporting
incomplete, the deriver appends a `PENDENTE/cadastro` row exactly when
the current situation is absent or its status name is not `PENDENTE`
(whatever the pendency reason) and no `PENDENTE/cadastro` row exists yet;
in particular, a current `PENDENTE` situation with any other reason
blocks the insertion. -/
theorem supplier_pendency_incomplete_insert_condition (h : SituationHistory) :
    verify_supplier_pendency false h =
      (if currentIsPendente h || h.contains pendenteCadastro then h
       else h ++ [pendenteCadastro]) := by
  by_cases hp : currentIsPendente h
  · have hs : situationNotPendente h = false := by
      rw [situationNotPendente_eq_not_currentIsPendente, hp]
      rfl
    simp [verify_supplier_pendency, hs, hp]
  · have hp' : currentIsPendente h = false := by
      simpa using hp
    have hs : situationNotPendente h = true := by
      rw [situationNotPendente_eq_not_currentIsPendente, hp']
      rfl
    by_cases hm : pendenteCadastro ∈ h
    · simp [verify_supplier_pendency, hs, getOrCreate_of_mem hm, hp',
        (contains_iff_mem h pendenteCadastro).2 hm, hm]
    · have hc : h.contains pendenteCadastro = false := by
        cases hcc : h.contains pendenteCadastro
        · rfl
        · exact absurd ((contains_iff_mem h pendenteCadastro).1 hcc) hm
      simp [verify_supplier_pendency, hs, getOrCreate_of_not_mem hm, hp', hc,
        hm]

/-- C8: with the underlying state (completeness verdicts) held fixed, each
of the three situation handlers is idempotent — running it a second time
on the history it just produced changes nothing — and one run appends at
most one row. -/
theorem situation_deriver_idempotent (c m r f : Bool) (h : SituationHistory) :
    (verify_supplier_pendency c (verify_supplier_pendency c h)
        = verify_supplier_pendency c h)
    ∧ (verify_responsability_matrix_pendency m r
          (verify_responsability_matrix_pendency m r h)
        = verify_responsability_matrix_pendency m r h)
    ∧ (verify_supplier_attachment_pendency f r
          (verify_supplier_attachment_pendency f r h)
        = verify_supplier_attachment_pendency f r h)
    ∧ (verify_supplier_pendency c h).length ≤ h.length + 1
    ∧ (verify_responsability_matrix_pendency m r h).length ≤ h.length + 1
    ∧ (verify_supplier_attachment_pendency f r h).length ≤ h.length + 1 :=
  ⟨verify_supplier_pendency_idem c h,
   verify_responsability_matrix_pendency_idem m r h,
   verify_supplier_attachment_pendency_idem f r h,
   length_le_of_shape (verify_supplier_pendency_shape c h),
   length_le_of_shape (verify_responsability_matrix_pendency_shape m r h),
   length_le_of_shape (verify_supplier_attachment_pendency_shape f r h)⟩

/-- C10: every situation handler keeps the history invariants: once a row
with a given status exists, its multiplicity never grows (so under the
`unique_together (supplier, status)` constraint no duplicate is ever
inserted); every run either leaves the history unchanged or appends a
single new row (no update, no delete); and status-uniqueness of the
history is preserved. -/
theorem situation_history_invariant (c m r f : Bool) (h : SituationHistory)
    (s₀ : DomSituation) (hmem : s₀ ∈ h) :
    ((verify_supplier_pendency c h).count s₀ = h.count s₀
      ∧ (verify_responsability_matrix_pendency m r h).count s₀ = h.count s₀
      ∧ (verify_supplier_attachment_pendency f r h).count s₀ = h.count s₀)
    ∧ ((verify_supplier_pendency c h = h
          ∨ ∃ s, verify_supplier_pendency c h = h ++ [s])
      ∧ (verify_responsability_matrix_pendency m r h = h
          ∨ ∃ s, verify_responsability_matrix_pendency m r h = h ++ [s])
      ∧ (verify_supplier_attachment_pendency f r h = h
          ∨ ∃ s, verify_supplier_attachment_pendency f r h = h ++ [s]))
    ∧ (h.Nodup →
        (verify_supplier_pendency c h).Nodup
        ∧ (verify_responsability_matrix_pendency m r h).Nodup
        ∧ (verify_supplier_attachment_pendency f r h).Nodup) :=
  ⟨⟨count_eq_of_shape (verify_supplier_pendency_shape c h) hmem,
    count_eq_of_shape (verify_responsability_matrix_pendency_shape m r h) hmem,
    count_eq_of_shape (verify_supplier_attachment_pendency_shape f r h) hmem⟩,
   ⟨append_only_of_shape (verify_supplier_pendency_shape c h),
    append_only_of_shape (verify_responsability_matrix_pendency_shape m r h),
    append_only_of_shape (verify_supplier_attachment_pendency_shape f r h)⟩,
   fun hn =>
    ⟨nodup_of_shape (verify_supplier_pendency_shape c h) hn,
     nodup_of_shape (verify_responsability_matrix_pendency_shape m r h) hn,
     nodup_of_shape (verify_supplier_attachment_pendency_shape f r h) hn⟩⟩

/-- C10 witness: the invariant instantiated on a one-row history that
already holds a `PENDENTE/cadastro` row. -/
theorem situation_history_invariant_witness :
    (verify_supplier_pendency true [pendenteCadastro]).count pendenteCadastro
      = ([pendenteCadastro] : SituationHistory).count pendenteCadastro :=
  (situation_history_invariant true true true true [pendenteCadastro]
    pendenteCadastro (by decide)).1.1

/-- C3: for a step catalog with strictly increasing order values, written
as `l₁ ++ cur :: l₂`: starting a flow places it on the first (lowest
order) step with no completion date; approving the current step `cur`
advances the flow to the head of `l₂`, i.e. the step with the smallest
order strictly greater than `cur`'s — and when `cur` is the last step,
the approval sets the completion date and leaves no current step. -/
theorem approval_flow_advances_in_order
    (l₁ l₂ : List ApprovalStep) (cur : ApprovalStep) (now now' : Nat)
    (st : FlowState)
    (hsorted : (l₁ ++ cur :: l₂).Pairwise (fun a b => a.order < b.order))
    (hflow : st.flow.currentStep = some cur)
    (hncomp : st.flow.completionDate = none)
    (hnew : st.approvals.all (fun a => a.stepId != cur.id) = true) :
    (startApprovalFlow (l₁ ++ cur :: l₂) now').currentStep
        = (l₁ ++ cur :: l₂).head?
    ∧ (startApprovalFlow (l₁ ++ cur :: l₂) now').completionDate = none
    ∧ ∃ st', stepApprovalPost (l₁ ++ cur :: l₂) now st true = .ok st'
        ∧ st'.flow.currentStep = l₂.head?
        ∧ st'.flow.completionDate = (if l₂.isEmpty then some now else none) := by
  refine ⟨?_, (startApprovalFlow_eq _ now').2, ?_⟩
  · rw [(startApprovalFlow_eq _ now').1]
    exact firstByOrder_sorted _ hsorted
  · have hany := any_stepId_eq_false hnew
    have hnext := nextStepAfter_split l₁ l₂ cur hsorted
    have hcomp : st.flow.isCompleted = false := by
      simp [ApprovalFlow.isCompleted, hncomp]
    refine ⟨{ flow := (advanceToNextStep (l₁ ++ cur :: l₂) now st.flow).1,
              approvals := st.approvals ++ [⟨cur.id, true⟩] }, ?_, ?_, ?_⟩
    · unfold stepApprovalPost
      rw [hflow]
      simp [hany]
    · show ((advanceToNextStep (l₁ ++ cur :: l₂) now st.flow).1).currentStep
          = l₂.head?
      cases l₂ with
      | nil => simp [advanceToNextStep, hcomp, hflow, hnext, completeFlow]
      | cons x xs => simp [advanceToNextStep, hcomp, hflow, hnext]
    · show ((advanceToNextStep (l₁ ++ cur :: l₂) now st.flow).1).completionDate
          = (if l₂.isEmpty then some now else none)
      cases l₂ with
      | nil => simp [advanceToNextStep, hcomp, hflow, hnext, completeFlow]
      | cons x xs => simp [advanceToNextStep, hcomp, hflow, hnext, hncomp]

/-- C3 witness: the spec's three-step scenario with orders 1 < 2 < 3; a
flow on the first step with no decisions yet. -/
theorem approval_flow_advances_in_order_witness :
    (startApprovalFlow ([] ++ ⟨1, 1⟩ :: [⟨2, 2⟩, ⟨3, 3⟩]) 9).currentStep
        = ([] ++ (⟨1, 1⟩ : ApprovalStep) :: [⟨2, 2⟩, ⟨3, 3⟩]).head?
    ∧ (startApprovalFlow ([] ++ ⟨1, 1⟩ :: [⟨2, 2⟩, ⟨3, 3⟩]) 9).completionDate
        = none
    ∧ ∃ st', stepApprovalPost ([] ++ ⟨1, 1⟩ :: [⟨2, 2⟩, ⟨3, 3⟩]) 5
          ⟨⟨some ⟨1, 1⟩, none⟩, []⟩ true = .ok st'
        ∧ st'.flow.currentStep = ([⟨2, 2⟩, ⟨3, 3⟩] : List ApprovalStep).head?
        ∧ st'.flow.completionDate
            = (if ([⟨2, 2⟩, ⟨3, 3⟩] : List ApprovalStep).isEmpty then some 5
               else none) :=
  approval_flow_advances_in_order [] [⟨2, 2⟩, ⟨3, 3⟩] ⟨1, 1⟩ 5 9
    ⟨⟨some ⟨1, 1⟩, none⟩, []⟩ (by decide) rfl rfl (by decide)

/-- C6 counterexample: on a two-step catalog, rejecting the current step
leaves the flow on that step (consistent with the claim's first half),
but a subsequent decide on the same flow and step — approval or another
rejection — is refused with "step already evaluated" instead of being
accepted, refuting the claim's second half. -/
theorem step_rejection_locks_step_counterexample :
    stepApprovalPost [⟨1, 1⟩, ⟨2, 2⟩] 7
        (⟨⟨some ⟨1, 1⟩, none⟩, []⟩ : FlowState) false
      = .ok (⟨⟨some ⟨1, 1⟩, none⟩, [⟨1, false⟩]⟩ : FlowState)
    ∧ stepApprovalPost [⟨1, 1⟩, ⟨2, 2⟩] 8
        (⟨⟨some ⟨1, 1⟩, none⟩, [⟨1, false⟩]⟩ : FlowState) true
      = .error ERROR_STEP_ALREADY_EVALUATED
    ∧ stepApprovalPost [⟨1, 1⟩, ⟨2, 2⟩] 8
        (⟨⟨some ⟨1, 1⟩, none⟩, [⟨1, false⟩]⟩ : FlowState) false
      = .error ERROR_STEP_ALREADY_EVALUATED :=
  ⟨rfl, rfl, rfl⟩

/-- C6 (amended): recording a rejection on a flow's current step does not
terminate the flow — the completion date stays unset and the flow stays
on the same step, with the rejection appended to the decision rows — but
the step does not await a new decision: any subsequent decide operation
on that flow for that same step is refused with "step already
evaluated". -/
theorem step_rejection_keeps_step_and_locks (steps : List ApprovalStep)
    (now now' : Nat) (st : FlowState) (cur : ApprovalStep) (b : Bool)
    (hflow : st.flow.currentStep = some cur)
    (hnew : st.approvals.all (fun a => a.stepId != cur.id) = true) :
    ∃ st', stepApprovalPost steps now st false = .ok st'
      ∧ st'.flow = st.flow
      ∧ st'.flow.currentStep = some cur
      ∧ st'.approvals = st.approvals ++ [⟨cur.id, false⟩]
      ∧ stepApprovalPost steps now' st' b
          = .error ERROR_STEP_ALREADY_EVALUATED := by
  have hany := any_stepId_eq_false hnew
  refine ⟨{ st with approvals := st.approvals ++ [⟨cur.id, false⟩] },
    ?_, rfl, hflow, rfl, ?_⟩
  · unfold stepApprovalPost
    rw [hflow]
    simp [hany]
  · unfold stepApprovalPost
    rw [show ({ st with approvals := st.approvals ++ [⟨cur.id, false⟩] }
          : FlowState).flow = st.flow from rfl, hflow]
    have : (st.approvals ++ ([⟨cur.id, false⟩] : List StepApprovalRow)).any
        (fun a => a.stepId == cur.id) = true := by
      rw [List.any_append]
      simp
    simp [this]

/-- C6 witness: the amended statement on a concrete two-step catalog with
a fresh flow on the first step. -/
theorem step_rejection_keeps_step_and_locks_witness :
    ∃ st', stepApprovalPost [⟨1, 1⟩, ⟨2, 2⟩] 7
        (⟨⟨some ⟨1, 1⟩, none⟩, []⟩ : FlowState) false = .ok st'
      ∧ st'.flow = (⟨⟨some ⟨1, 1⟩, none⟩, []⟩ : FlowState).flow
      ∧ st'.flow.currentStep = some ⟨1, 1⟩
      ∧ st'.approvals = ([] : List StepApprovalRow) ++ [⟨1, false⟩]
      ∧ stepApprovalPost [⟨1, 1⟩, ⟨2, 2⟩] 8 st' true
          = .error ERROR_STEP_ALREADY_EVALUATED :=
  step_rejection_keeps_step_and_locks [⟨1, 1⟩, ⟨2, 2⟩] 7 8
    ⟨⟨some ⟨1, 1⟩, none⟩, []⟩ ⟨1, 1⟩ true rfl (by decide)

/-- C9: invoking assign-responsible on a workflow positioned at a terminal
step — no catalog step has an order strictly greater than the looked-up
step's — fails with the "no next step" validation error, and the database
is returned unchanged: no workflow row and no approver is created. -/
theorem assign_responsible_terminal_step_fails (db : WorkflowDb)
    (inp : SetResponsibleInput) (newId : Nat) (s : ApprovalStep)
    (hfind : db.steps.find? (fun t => t.id == inp.stepId) = some s)
    (hterm : ∀ t ∈ db.steps, t.order ≤ s.order) :
    setResponsibleSave db inp newId = (.error ERROR_NO_NEXT_STEP, db) := by
  have hnext : nextStepAfter db.steps s = none := by
    unfold nextStepAfter
    have hfil : db.steps.filter (fun t => s.order < t.order) = [] := by
      rw [List.filter_eq_nil_iff]
      intro t ht
      have := hterm t ht
      simp
      omega
    rw [hfil]
    rfl
  unfold setResponsibleSave setResponsibleValidate
  rw [hfind]
  simp [hnext]

/-- C7 counterexample: a catalog defining two attachment types at risk
level 5 and a supplier (id 100) holding one attachment.  The code reports
the set complete (its required count is the number of attachment *rows*
at that risk level, here the supplier's own single row), while the
claim's type-count rule reports it incomplete (1 attachment < 2 required
types); and adding another supplier's attachment row flips the code's
verdict for supplier 100, so it is not independent of other suppliers'
data. -/
theorem attachment_completeness_counterexample :
    is_completed_files ⟨[⟨1, 5⟩, ⟨2, 5⟩], [⟨100, 1⟩]⟩ 100 5 = true
    ∧ claimAttachmentComplete ⟨[⟨1, 5⟩, ⟨2, 5⟩], [⟨100, 1⟩]⟩ 100 5 = false
    ∧ is_completed_files ⟨[⟨1, 5⟩, ⟨2, 5⟩], [⟨100, 1⟩, ⟨200, 2⟩]⟩ 100 5
        = false :=
  ⟨by rfl, by rfl, by rfl⟩

/-- C7 (amended): the attachment set is reported complete exactly when
the number of attachments the supplier has is at least the number of
`SupplierAttachment` rows — across all suppliers — whose attachment
type belongs to the supplier's current risk level; a row count over the
attachment table, not a count of the catalog's distinct types. -/
theorem attachment_completeness_row_count (db : AttachmentDb)
    (supplierId riskLevel : Nat) :
    is_completed_files db supplierId riskLevel
      = specRowCountComplete db supplierId riskLevel := by
  have h1 : db.rows.filter (fun r => r.supplierId == supplierId)
      = db.rows.filter (fun r => decide (r.supplierId = supplierId)) := by
    apply List.filter_congr
    intro r hr
    by_cases h : r.supplierId = supplierId <;>
      simp [h, beq_eq_false_iff_ne]
  have h2 : db.rows.filter
        (fun r => typeRiskLevel db r.typeId == some riskLevel)
      = db.rows.filter
        (fun r => decide (typeRiskLevel db r.typeId = some riskLevel)) := by
    apply List.filter_congr
    intro r hr
    by_cases h : typeRiskLevel db r.typeId = some riskLevel <;>
      simp [h, beq_eq_false_iff_ne]
  simp only [is_completed_files, specRowCountComplete, supplierAttachmentsOf]
  rw [List.countP_eq_length_filter, List.countP_eq_length_filter, ← h1, ← h2]

/-- C2: `is_completed_registration` is total on the embedded model and is
true exactly when the recursive completeness validator accepts the
supplier's field tree, the supplier has at least one attachment whose
file-completeness rule holds, and the supplier's responsibility matrix
exists and reports itself complete. -/
theorem is_completed_registration_iff (db : AttachmentDb) (s : SupplierRec) :
    is_completed_registration db s = true ↔
      (validate_object_complete s.fields = true
        ∧ (∃ a ∈ supplierAttachmentsOf db s.id,
             is_completed_files db s.id s.riskLevel = true)
        ∧ (∃ m, s.matrix = some m ∧ m.is_completed = true)) := by
  unfold is_completed_registration
  cases hh : (supplierAttachmentsOf db s.id).head? with
  | none =>
      have hnil : supplierAttachmentsOf db s.id = [] := by
        simpa using hh
      simp [hnil]
  | some a =>
      have ha : a ∈ supplierAttachmentsOf db s.id :=
        List.mem_of_mem_head? (by simp [hh])
      cases hm : s.matrix with
      | none => simp [hh, hm]
      | some m =>
          show (validate_object_complete s.fields
              && is_completed_files db s.id s.riskLevel
              && ResponsibilityMatrixCem.is_completed m) = true ↔ _
          constructor
          · intro hlhs
            simp only [Bool.and_eq_true] at hlhs
            exact ⟨hlhs.1.1, ⟨a, ha, hlhs.1.2⟩, ⟨m, rfl, hlhs.2⟩⟩
          · rintro ⟨h1, ⟨a', _, h2⟩, ⟨m', hm', h3⟩⟩
            cases hm'
            simp [h1, h2, h3]

/-- C9 witness: a two-step catalog with the flow's step looked up as the
terminal one (order 2). -/
theorem assign_responsible_terminal_step_fails_witness :
    setResponsibleSave
        ⟨[⟨1, 1⟩, ⟨2, 2⟩], [⟨10, 77, 2, "a@b.c", "obs"⟩], []⟩
        ⟨"Ana", "ana@b.c", 10, 2, ""⟩ 11
      = (.error ERROR_NO_NEXT_STEP,
         ⟨[⟨1, 1⟩, ⟨2, 2⟩], [⟨10, 77, 2, "a@b.c", "obs"⟩], []⟩) :=
  assign_responsible_terminal_step_fails
    ⟨[⟨1, 1⟩, ⟨2, 2⟩], [⟨10, 77, 2, "a@b.c", "obs"⟩], []⟩
    ⟨"Ana", "ana@b.c", 10, 2, ""⟩ 11 ⟨2, 2⟩ (by rfl) (by decide)

end Procurement
